import Mathlib

/-!
Shallow embedding of the content-moderation core of the repository
(`text_moderation_node.py`, `image_moderation_node.py`, `main.py`).

Conventions of the embedding:
* Python dicts that carry a per-modality verdict become the `Verdict`
  structure; keys that are absent in some dicts (`method`,
  `detected_keywords`, `description`) are `Option`-valued, `none`
  standing for an absent key.
* A Python value that may be the empty dict `{}` or `None` (both falsy)
  becomes `Option Verdict`, with `none` for the falsy cases.
* The outcome of one LLM call together with the JSON-parsing of its
  reply is an oracle value of type `LLMResult`: `ok v` when invocation
  and parsing succeeded and produced the fields `v`, `fail` when either
  step raised.  The functions under test are parametrised by such
  oracles, mirroring the `try:`/`except:` blocks of the source.
* A Python function that can raise to its caller becomes `Option`-valued,
  `none` standing for the escaping exception.
* `float` confidences become `Rat` (the values used are 1.0, 0.8, 0.5).
-/

/-- Characters stripped by Python `str.strip()` (Unicode whitespace). -/
def isPySpace (c : Char) : Bool :=
  c = ' ' || ('\x09' ≤ c && c ≤ '\x0d') || ('\x1c' ≤ c && c ≤ '\x1f') ||
  c = '\x85' || c = '\xa0' || c = '\u1680' || ('\u2000' ≤ c && c ≤ '\u200a') ||
  c = '\u2028' || c = '\u2029' || c = '\u202f' || c = '\u205f' || c = '\u3000'

/-- Python condition `not text or not text.strip()`: the string is empty or
all-whitespace. -/
def isBlankPy (s : String) : Bool :=
  s.data.all isPySpace

/-- Python `s.lower()` as a character list (per-character ASCII lowering;
the keyword table is CJK-only, so this agrees with Python on every
keyword). -/
def lowerChars (s : String) : List Char :=
  s.data.map Char.toLower

/-- Python substring containment `needle in haystack` on character lists. -/
def substrOf (needle : List Char) : List Char → Bool
  | [] => needle.isEmpty
  | c :: t => needle.isPrefixOf (c :: t) || substrOf needle t

/-- One per-modality verdict dict.  `method`, `detected_keywords` and
`description` are `none` when the corresponding key is absent. -/
structure Verdict where
  is_safe : Bool
  risk_level : String
  categories : List String
  reasons : List String
  confidence : Rat
  method : Option String := none
  detected_keywords : Option (List String) := none
  description : Option String := none
deriving DecidableEq

/-- Oracle for one LLM call plus the parsing of its reply:
`ok v` = invocation and JSON parsing succeeded with fields `v`;
`fail` = invocation or parsing raised. -/
inductive LLMResult where
  | ok : Verdict → LLMResult
  | fail : LLMResult
deriving DecidableEq

/-- `load_moderation_keywords` of `text_moderation_node.py`
(dict iteration order preserved). -/
def load_moderation_keywords : List (String × List String) :=
  [("violence", ["杀", "死", "暴力", "打斗", "血腥", "战争", "恐怖", "威胁"]),
   ("adult", ["色情", "成人", "性", "裸露", "露骨", "色情内容"]),
   ("illegal", ["毒品", "赌博", "诈骗", "违法", "犯罪", "走私", "盗版"]),
   ("hate", ["歧视", "种族", "仇恨", "辱骂", "侮辱", "诽谤"]),
   ("politics", ["政治", "政府", "领导人", "敏感政治话题"])]

/-- The `(category, keyword)` pairs appended by the nested loops of
`moderate_text_with_keywords`, in iteration order: for each category of
the table, each of its keywords whose lowering is contained in the
lowered text appends one pair. -/
def detectedPairs (text : String) : List (String × String) :=
  (load_moderation_keywords.map (fun ck =>
    (ck.2.filter (fun kw => substrOf (lowerChars kw) (lowerChars text))).map
      (fun kw => (ck.1, kw)))).flatten

/-- `moderate_text_with_keywords` of `text_moderation_node.py`.
`detected_categories` receives one entry per matched keyword, so its
length counts keyword matches, not distinct categories. -/
def moderate_text_with_keywords (text : String) : Verdict :=
  let pairs := detectedPairs text
  let detected_categories := pairs.map Prod.fst
  let detected_keywords := pairs.map Prod.snd
  let is_safe := detected_categories.isEmpty
  { is_safe := is_safe
    risk_level :=
      if is_safe then "low"
      else if 3 ≤ detected_categories.length then "high" else "medium"
    categories := detected_categories
    reasons :=
      if detected_keywords.isEmpty then []
      else ["检测到敏感词: " ++ String.intercalate ", " detected_keywords]
    confidence := if detected_keywords.isEmpty then 1 else 0.8
    method := none
    detected_keywords := some detected_keywords }

/-- `moderate_text_with_llm` of `text_moderation_node.py`: the whole
`invoke`-and-parse block sits in one `try:`; on any failure the function
itself returns `moderate_text_with_keywords(text)` (no exception
escapes this path). -/
def moderate_text_with_llm (llm : LLMResult) (text : String) : Verdict :=
  match llm with
  | .ok v => v
  | .fail => moderate_text_with_keywords text

/-- The partial state dict returned by `text_moderation_node`. -/
structure TextNodeResult where
  text_moderation_result : Option Verdict
  error : Option String
deriving DecidableEq

/-- `text_moderation_node` of `text_moderation_node.py`.  For blank text
it returns the fixed `empty_content` verdict without consulting the
oracle; otherwise it takes `moderate_text_with_llm`'s result and sets
`method = "llm_analysis"` on it (its own `except` branch that would tag
`keyword_analysis` is unreachable for invocation/parsing failures,
because `moderate_text_with_llm` already caught them). -/
def text_moderation_node (llm : LLMResult) (text_content : String) :
    TextNodeResult :=
  if isBlankPy text_content then
    { text_moderation_result := some
        { is_safe := true, risk_level := "low", categories := [],
          reasons := ["无文本内容"], confidence := 1,
          method := some "empty_content" }
      error := none }
  else
    { text_moderation_result := some
        { moderate_text_with_llm llm text_content with
            method := some "llm_analysis" }
      error := none }

/-- `moderate_image_with_llm` of `image_moderation_node.py`: on
invocation or parsing failure it returns the fixed conservative
verdict. -/
def moderate_image_with_llm (llm : LLMResult) : Verdict :=
  match llm with
  | .ok v => v
  | .fail =>
      { is_safe := false, risk_level := "medium", categories := ["unknown"],
        reasons := ["图片分析失败，需要人工审核"], confidence := 0.5,
        method := some "analysis_failed",
        description := some "无法分析图片内容" }

/-- The partial state dict returned by `image_moderation_node`. -/
structure ImageNodeResult where
  image_moderation_result : Option Verdict
  image_analysis_result : String
  error : Option String
deriving DecidableEq

/-- `image_moderation_node` of `image_moderation_node.py`.  `descr` is
the oracle for `analyze_image_content(...)"description"` (that call
never raises: its own failure path returns an error-annotated string). -/
def image_moderation_node (llm : LLMResult) (descr : String)
    (image_base64 : String) : ImageNodeResult :=
  if image_base64 = "" then
    { image_moderation_result := some
        { is_safe := true, risk_level := "low", categories := [],
          reasons := ["无图片内容"], confidence := 1,
          method := some "no_content", description := some "未提供图片" }
      image_analysis_result := ""
      error := none }
  else
    { image_moderation_result := some (moderate_image_with_llm llm)
      image_analysis_result := descr
      error := none }

/-- Python `["low", "medium", "high"].index(r)`: `none` models the
`ValueError` raised when `r` is not in the list. -/
def riskIndex (r : String) : Option Nat :=
  if r = "low" then some 0
  else if r = "medium" then some 1
  else if r = "high" then some 2
  else none

/-- Python `max(a, b, key=lambda x: ["low","medium","high"].index(x))`:
the key is evaluated on both arguments (either lookup may raise), and
`max` keeps the first argument unless the second is strictly larger. -/
def maxRisk (a b : String) : Option String :=
  match riskIndex a, riskIndex b with
  | some ia, some ib => some (if ia < ib then b else a)
  | _, _ => none

/-- The text block of `combine_moderation_results` (`main.py` lines
47-58), acting on the initial accumulator
`(overall_safe, risk_level, recommendations) = (true, "low", [])`;
`none` models the `ValueError` escaping the block. -/
def textStep (text_result : Option Verdict) :
    Option (Bool × String × List String) :=
  match text_result with
  | none => some (true, "low", [])
  | some tr =>
      if tr.is_safe then some (true, "low", [])
      else
        match maxRisk "low" tr.risk_level with
        | none => none
        | some r =>
            some (false, r,
              if tr.categories.isEmpty then []
              else ["文本包含" ++ String.intercalate ", " tr.categories ++
                    "类内容"])

/-- The image block of `combine_moderation_results` (`main.py` lines
60-73), acting on the accumulator left by the text block. -/
def imageStep (image_result : Option Verdict)
    (acc : Bool × String × List String) :
    Option (Bool × String × List String) :=
  match image_result with
  | none => some acc
  | some ir =>
      if ir.is_safe then some (acc.1, acc.2.1, acc.2.2 ++ ["图片内容安全"])
      else
        match maxRisk acc.2.1 ir.risk_level with
        | none => none
        | some r =>
            some (false, r,
              acc.2.2 ++
                (if ir.categories.isEmpty then []
                 else ["图片包含" ++ String.intercalate ", " ir.categories ++
                       "类内容"]))

/-- The fields of the combiner's output that it computes (the rest of the
state passes through unchanged). -/
structure CombineOutput where
  overall_safe : Bool
  risk_level : String
  recommendations : List String
deriving DecidableEq

/-- `combine_moderation_results` of `main.py`: text block, image block,
the description marker line, then the leading pass/fail line inserted at
position 0.  `none` models the `ValueError` raised by a risk-level
lookup, which escapes the function. -/
def combine_moderation_results (text_result image_result : Option Verdict)
    (image_analysis_result : String) : Option CombineOutput :=
  match textStep text_result with
  | none => none
  | some acc1 =>
      match imageStep image_result acc1 with
      | none => none
      | some (safe2, risk2, recs2) =>
          let recs3 :=
            if image_analysis_result = "" then recs2
            else recs2 ++ ["图片已分析描述"]
          some { overall_safe := safe2
                 risk_level := risk2
                 recommendations :=
                   (if safe2 then "内容审核通过"
                    else "内容审核不通过，建议修改") :: recs3 }

/-- The state of `content_moderation_graph` after the combiner ran
(the fields of `ContentModerationState` the claims read). -/
structure GraphState where
  text_moderation_result : Option Verdict
  image_moderation_result : Option Verdict
  image_analysis_result : String
  overall_safe : Bool
  risk_level : String
  recommendations : List String
  error : Option String
deriving DecidableEq

/-- One `content_moderation_graph.invoke` run (`create_content_moderation_graph`
of `main.py`): text node always; image node iff `image_base64` is truthy
(the `should_process_image` conditional edge); then the combiner.
`none` models an exception escaping a node — in this embedding only the
combiner's risk-level `ValueError` can do so. -/
def run_content_moderation_graph (text_llm image_llm : LLMResult)
    (image_descr : String) (text_content image_base64 : String) :
    Option GraphState :=
  let tn := text_moderation_node text_llm text_content
  let s1 : GraphState :=
    { text_moderation_result := tn.text_moderation_result
      image_moderation_result := none
      image_analysis_result := ""
      overall_safe := true
      risk_level := "low"
      recommendations := []
      error := tn.error }
  let s2 : GraphState :=
    if image_base64 = "" then s1
    else
      let im := image_moderation_node image_llm image_descr image_base64
      { s1 with
          image_moderation_result := im.image_moderation_result
          image_analysis_result := im.image_analysis_result
          error := im.error }
  match combine_moderation_results s2.text_moderation_result
      s2.image_moderation_result s2.image_analysis_result with
  | none => none
  | some c =>
      some { s2 with
               overall_safe := c.overall_safe
               risk_level := c.risk_level
               recommendations := c.recommendations
               error := none }

/-- The `data` dict built by `process_content_moderation` on success. -/
structure PipelineData where
  overall_safe : Bool
  risk_level : String
  recommendations : List String
  text_moderation : Option Verdict
  image_moderation : Option Verdict
  image_analysis : String
deriving DecidableEq

/-- The dict returned by `process_content_moderation`. -/
structure ProcessResult where
  success : Bool
  data : Option PipelineData
  error : Option String
deriving DecidableEq

/-- `process_content_moderation` of `main.py`: reject when both inputs
are falsy, otherwise run the graph; an exception escaping the graph is
caught and reported (its message, Python's `str(e)`, is abstracted to a
fixed string here — no claim depends on its wording). -/
def process_content_moderation (text_llm image_llm : LLMResult)
    (image_descr : String) (text_content image_base64 : String) :
    ProcessResult :=
  if text_content = "" ∧ image_base64 = "" then
    { success := false, data := none, error := some "No content provided" }
  else
    match run_content_moderation_graph text_llm image_llm image_descr
        text_content image_base64 with
    | none =>
        { success := false, data := none
          error := some "is not in list" }
    | some r =>
        match r.error with
        | some e => { success := false, data := none, error := some e }
        | none =>
            { success := true
              data := some
                { overall_safe := r.overall_safe
                  risk_level := r.risk_level
                  recommendations := r.recommendations
                  text_moderation := r.text_moderation_result
                  image_moderation := r.image_moderation_result
                  image_analysis := r.image_analysis_result }
              error := none }

/-- Specification-side view: a risk-level string the combiner's lookup
accepts. -/
def riskValid (v : Verdict) : Bool :=
  (riskIndex v.risk_level).isSome

/-- An optional verdict all of whose risk lookups would succeed. -/
def riskValidOpt : Option Verdict → Bool
  | none => true
  | some v => riskValid v

/-- The condition under which the combiner never raises on this operand:
absent, safe (its risk level is never looked up), or valid. -/
def combineOk : Option Verdict → Bool
  | none => true
  | some v => v.is_safe || riskValid v

/-- Ordinal contribution of one optional verdict to the overall risk:
absent and safe verdicts contribute 0 (the floor "low"); an unsafe one
contributes the ordinal of its risk level. -/
def contrib : Option Verdict → Nat
  | none => 0
  | some v => if v.is_safe then 0 else (riskIndex v.risk_level).getD 0

/-- Safety contribution of one optional verdict: absent counts as safe. -/
def safeContrib : Option Verdict → Bool
  | none => true
  | some v => v.is_safe

/-- The risk-level string of a given ordinal (0 = low, 1 = medium,
2 = high). -/
def riskOfNat (n : Nat) : String :=
  if n = 0 then "low" else if n = 1 then "medium" else "high"

/-- Ordinal rank of a possible combiner output's risk level (0 when the
combiner raised). -/
def rank : Option CombineOutput → Nat
  | none => 0
  | some c => (riskIndex c.risk_level).getD 0

/-- Sample verdict: safe but carrying `risk_level = "high"` (as an LLM
reply may). -/
def safeHighVerdict : Verdict :=
  { is_safe := true, risk_level := "high", categories := [],
    reasons := [], confidence := 1 }

/-- Sample verdict: unsafe with `risk_level = "medium"`. -/
def unsafeMediumVerdict : Verdict :=
  { is_safe := false, risk_level := "medium", categories := ["violence"],
    reasons := [], confidence := 0.8 }

/-- Sample verdict: safe with `risk_level = "medium"`. -/
def safeMediumVerdict : Verdict :=
  { is_safe := true, risk_level := "medium", categories := [],
    reasons := [], confidence := 1 }

/-- Sample verdict: unsafe with a risk-level string outside
`low`/`medium`/`high`. -/
def badRiskVerdict : Verdict :=
  { is_safe := false, risk_level := "extreme", categories := ["unknown"],
    reasons := [], confidence := 0.5 }

/-- Sample verdict: unsafe with `risk_level = "high"`. -/
def unsafeHighVerdict : Verdict :=
  { is_safe := false, risk_level := "high", categories := ["violence"],
    reasons := [], confidence := 1 }

/-- The `empty_content` verdict `text_moderation_node` returns for blank
text. -/
def emptyContentVerdict : Verdict :=
  { is_safe := true, risk_level := "low", categories := [],
    reasons := ["无文本内容"], confidence := 1,
    method := some "empty_content" }

/-- The conservative verdict `moderate_image_with_llm` returns on
invocation or parsing failure. -/
def analysisFailedVerdict : Verdict :=
  { is_safe := false, risk_level := "medium", categories := ["unknown"],
    reasons := ["图片分析失败，需要人工审核"], confidence := 0.5,
    method := some "analysis_failed",
    description := some "无法分析图片内容" }

theorem riskIndex_cases (r : String) (h : (riskIndex r).isSome = true) :
    r = "low" ∨ r = "medium" ∨ r = "high" := by
  by_cases h1 : r = "low"
  · exact Or.inl h1
  by_cases h2 : r = "medium"
  · exact Or.inr (Or.inl h2)
  by_cases h3 : r = "high"
  · exact Or.inr (Or.inr h3)
  simp [riskIndex, h1, h2, h3] at h

theorem contrib_le_two (v : Option Verdict) : contrib v ≤ 2 := by
  cases v with
  | none => simp [contrib]
  | some w =>
      by_cases h1 : w.risk_level = "low" <;>
        by_cases h2 : w.risk_level = "medium" <;>
          by_cases h3 : w.risk_level = "high" <;>
            simp [contrib, riskIndex, h1, h2, h3] <;> split <;> omega

theorem riskOfNat_index (n : Nat) (h : n ≤ 2) :
    riskIndex (riskOfNat n) = some n := by
  interval_cases n <;> rfl

theorem textStep_spec (t : Option Verdict) (h : combineOk t = true) :
    ∃ recs, textStep t = some (safeContrib t, riskOfNat (contrib t), recs) := by
  cases t with
  | none => exact ⟨[], rfl⟩
  | some v =>
      cases hs : v.is_safe with
      | true =>
          exact ⟨[], by simp [textStep, hs, safeContrib, contrib, riskOfNat]⟩
      | false =>
          have hv : (riskIndex v.risk_level).isSome = true := by
            simpa [combineOk, riskValid, hs] using h
          rcases riskIndex_cases _ hv with h1 | h1 | h1 <;>
            exact ⟨if v.categories.isEmpty then []
                   else ["文本包含" ++ String.intercalate ", " v.categories ++
                         "类内容"],
              by simp [textStep, hs, h1, maxRisk, riskIndex, safeContrib,
                   contrib, riskOfNat]⟩

theorem imageStep_spec (i : Option Verdict) (s1 : Bool) (n1 : Nat)
    (recs1 : List String) (h : combineOk i = true) (hn : n1 ≤ 2) :
    ∃ recs2, imageStep i (s1, riskOfNat n1, recs1) =
      some (s1 && safeContrib i, riskOfNat (max n1 (contrib i)), recs2) := by
  cases i with
  | none => exact ⟨recs1, by simp [imageStep, safeContrib, contrib]⟩
  | some w =>
      cases hs : w.is_safe with
      | true =>
          exact ⟨recs1 ++ ["图片内容安全"],
            by simp [imageStep, hs, safeContrib, contrib]⟩
      | false =>
          have hv : (riskIndex w.risk_level).isSome = true := by
            simpa [combineOk, riskValid, hs] using h
          rcases riskIndex_cases _ hv with h1 | h1 | h1 <;>
            interval_cases n1 <;>
              exact ⟨recs1 ++
                  (if w.categories.isEmpty then []
                   else ["图片包含" ++ String.intercalate ", " w.categories ++
                         "类内容"]),
                by simp [imageStep, hs, h1, maxRisk, riskIndex, safeContrib,
                     contrib, riskOfNat]⟩

theorem combine_spec (t i : Option Verdict) (d : String)
    (ht : combineOk t = true) (hi : combineOk i = true) :
    ∃ out, combine_moderation_results t i d = some out ∧
      out.overall_safe = (safeContrib t && safeContrib i) ∧
      out.risk_level = riskOfNat (max (contrib t) (contrib i)) := by
  obtain ⟨r1, h1⟩ := textStep_spec t ht
  obtain ⟨r2, h2⟩ :=
    imageStep_spec i (safeContrib t) (contrib t) r1 hi (contrib_le_two t)
  refine ⟨{ overall_safe := safeContrib t && safeContrib i
            risk_level := riskOfNat (max (contrib t) (contrib i))
            recommendations :=
              (if safeContrib t && safeContrib i then "内容审核通过"
               else "内容审核不通过，建议修改") ::
              (if d = "" then r2 else r2 ++ ["图片已分析描述"]) },
    ?_, rfl, rfl⟩
  unfold combine_moderation_results
  simp only [h1, h2]

theorem overall_safe_eq (t i : Option Verdict) (d : String)
    (ht : combineOk t = true) (hi : combineOk i = true) :
    (combine_moderation_results t i d).map CombineOutput.overall_safe =
      some (safeContrib t && safeContrib i) := by
  obtain ⟨out, ho, hs, _⟩ := combine_spec t i d ht hi
  rw [ho, Option.map_some', hs]

theorem rank_eq (t i : Option Verdict) (d : String)
    (ht : combineOk t = true) (hi : combineOk i = true) :
    rank (combine_moderation_results t i d) = max (contrib t) (contrib i) := by
  obtain ⟨out, ho, _, hr⟩ := combine_spec t i d ht hi
  rw [ho]
  show (riskIndex out.risk_level).getD 0 = _
  rw [hr, riskOfNat_index _
    (Nat.max_le.mpr ⟨contrib_le_two t, contrib_le_two i⟩)]
  rfl


/-- Claim C1: when the LLM invocation or the parsing of its reply fails
on a non-blank text, `text_moderation_node` does return the Keyword
Matcher's verdict on the same text, but tagged `method = "llm_analysis"`
rather than the claimed `"keyword_analysis"`: the fallback happens
inside `moderate_text_with_llm`, so the caller's `llm_analysis` tag is
applied to the keyword verdict and the caller's own `keyword_analysis`
branch is unreachable.  Evaluated at the failing input
`"今天天气很好"`. -/
theorem c1_fallback_mistagged :
    (text_moderation_node .fail "今天天气很好").text_moderation_result =
      some { moderate_text_with_keywords "今天天气很好" with
               method := some "llm_analysis" } ∧
    (text_moderation_node .fail "今天天气很好").text_moderation_result.map
        Verdict.method ≠ some (some "keyword_analysis") := by
  refine ⟨rfl, ?_⟩
  decide

/-- Claim C2 counterexample: a present but safe text verdict with
`risk_level = "high"` contributes nothing — the combiner returns
`risk_level = "low"`, not the maximum `"high"` over present verdicts. -/
theorem c2_safe_high_ignored :
    combine_moderation_results (some safeHighVerdict) none "" =
      some { overall_safe := true, risk_level := "low",
             recommendations := ["内容审核通过"] } ∧
    safeHighVerdict.risk_level = "high" ∧ ("low" : String) ≠ "high" := by
  refine ⟨rfl, rfl, ?_⟩
  decide

/-- Claim C2 (amended): the combiner's `risk_level` is the maximum,
under `low < medium < high`, of the risk levels of the present *unsafe*
verdicts only — safe verdicts and absent verdicts contribute the floor
`"low"` — provided every contributing lookup succeeds (`combineOk`). -/
theorem c2_risk_is_max_over_unsafe (t i : Option Verdict) (d : String)
    (ht : combineOk t = true) (hi : combineOk i = true) :
    (combine_moderation_results t i d).map CombineOutput.risk_level =
      some (riskOfNat (max (contrib t) (contrib i))) := by
  obtain ⟨out, ho, _, hr⟩ := combine_spec t i d ht hi
  rw [ho, Option.map_some', hr]

/-- Claim C2 witness: an unsafe medium text verdict and an absent image
verdict. -/
theorem c2_risk_is_max_over_unsafe_witness :
    combineOk (some unsafeMediumVerdict) = true ∧
    combineOk (none : Option Verdict) = true ∧
    (combine_moderation_results (some unsafeMediumVerdict) none "").map
        CombineOutput.risk_level =
      some (riskOfNat (max (contrib (some unsafeMediumVerdict))
        (contrib none))) :=
  ⟨by decide, by decide,
    c2_risk_is_max_over_unsafe _ none "" (by decide) (by decide)⟩

/-- Claim C3 counterexample: blank text is tagged
`method = "empty_content"`, not the claimed `"no_content"`. -/
theorem c3_blank_method_not_no_content :
    (text_moderation_node .fail "").text_moderation_result.map
        Verdict.method = some (some "empty_content") ∧
    ("empty_content" : String) ≠ "no_content" := by
  refine ⟨rfl, ?_⟩
  decide

/-- Claim C3 (amended): for every empty or all-whitespace text,
`text_moderation_node` returns the fixed verdict with
`method = "empty_content"` and `is_safe = true`, independently of the
model oracle (no model is consulted). -/
theorem c3_blank_text_empty_content (llm : LLMResult) (text : String)
    (h : isBlankPy text = true) :
    text_moderation_node llm text =
      { text_moderation_result := some emptyContentVerdict
        error := none } := by
  simp [text_moderation_node, h, emptyContentVerdict]

/-- Claim C3 witness: the single-space text, with an oracle that would
report unsafe content were it consulted. -/
theorem c3_blank_text_empty_content_witness :
    isBlankPy " " = true ∧
    text_moderation_node (.ok unsafeHighVerdict) " " =
      { text_moderation_result := some emptyContentVerdict
        error := none } :=
  ⟨by decide, c3_blank_text_empty_content _ " " (by decide)⟩

/-- Claim C4 counterexample: with neither text nor image,
`process_content_moderation` rejects the request before the graph runs —
it returns `success = false`, no data and the error
`"No content provided"`, so the pipeline does not run to completion and
no combiner output is produced. -/
theorem c4_empty_request_rejected :
    process_content_moderation .fail .fail "" "" "" =
      { success := false, data := none,
        error := some "No content provided" } ∧
    (process_content_moderation .fail .fail "" "" "").data = none := by
  exact ⟨rfl, rfl⟩

/-- Claim C4 (amended): when neither text nor an image is supplied, the
entry point `process_content_moderation` rejects the request with the
error `"No content provided"` and produces no verdict, for every model
oracle. -/
theorem c4_no_content_rejected (tl il : LLMResult) (d : String) :
    process_content_moderation tl il d "" "" =
      { success := false, data := none,
        error := some "No content provided" } := rfl

/-- Claim C5 counterexample: the text `"杀死暴力"` matches three
keywords of the single category `"violence"`; the matcher counts one
category entry per matched keyword, so it returns `risk_level = "high"`
although only one distinct category matched (the claim predicts
`"medium"`). -/
theorem c5_one_category_high :
    (moderate_text_with_keywords "杀死暴力").categories.dedup =
      ["violence"] ∧
    (moderate_text_with_keywords "杀死暴力").risk_level = "high" := by
  decide

/-- Claim C5 (amended): for every text with at least one keyword match,
the Keyword Matcher returns `risk_level = "high"` iff the number of
`(category, keyword)` matches — counted with one entry per matched
keyword, duplicates across keywords of the same category included — is
at least 3, and `"medium"` otherwise; the threshold counts keyword
matches, not distinct categories. -/
theorem c5_risk_counts_matches (text : String)
    (h : 1 ≤ (detectedPairs text).length) :
    (moderate_text_with_keywords text).risk_level =
      if 3 ≤ (detectedPairs text).length then "high" else "medium" := by
  unfold moderate_text_with_keywords
  have hne : ((detectedPairs text).map Prod.fst).isEmpty = false := by
    cases hp : detectedPairs text with
    | nil => rw [hp] at h; simp at h
    | cons a l => simp [hp]
  simp [hne, List.length_map]

/-- Claim C5 witness: `"暴力"` has exactly one keyword match and gets
`risk_level = "medium"`. -/
theorem c5_risk_counts_matches_witness :
    1 ≤ (detectedPairs "暴力").length ∧
    (moderate_text_with_keywords "暴力").risk_level =
      if 3 ≤ (detectedPairs "暴力").length then "high" else "medium" :=
  ⟨by decide, c5_risk_counts_matches "暴力" (by decide)⟩

/-- Claim C6: for every supplied image, when the vision call or its
parsing fails the Image Moderator returns the conservative verdict
(`is_safe = false`, `risk_level = "medium"`, `categories = ["unknown"]`,
`confidence = 0.5`, `method = "analysis_failed"`), and the combiner
given that image verdict (next to any non-raising text verdict) sets
`overall_safe = false`. -/
theorem c6_image_failure_conservative (descr img : String) (h : img ≠ "")
    (t : Option Verdict) (d : String) (ht : combineOk t = true) :
    (image_moderation_node .fail descr img).image_moderation_result =
      some analysisFailedVerdict ∧
    analysisFailedVerdict.is_safe = false ∧
    analysisFailedVerdict.risk_level = "medium" ∧
    analysisFailedVerdict.categories = ["unknown"] ∧
    analysisFailedVerdict.confidence = 0.5 ∧
    analysisFailedVerdict.method = some "analysis_failed" ∧
    (combine_moderation_results t (some analysisFailedVerdict) d).map
      CombineOutput.overall_safe = some false := by
  refine ⟨?_, rfl, rfl, rfl, rfl, rfl, ?_⟩
  · simp [image_moderation_node, h, moderate_image_with_llm,
      analysisFailedVerdict]
  · rw [overall_safe_eq _ _ _ ht (by decide)]
    simp [safeContrib, analysisFailedVerdict]

/-- Claim C6 witness: a concrete image string, no text verdict. -/
theorem c6_image_failure_conservative_witness :
    ("aW1n" : String) ≠ "" ∧
    combineOk (none : Option Verdict) = true ∧
    ((image_moderation_node .fail "" "aW1n").image_moderation_result =
        some analysisFailedVerdict ∧
      analysisFailedVerdict.is_safe = false ∧
      analysisFailedVerdict.risk_level = "medium" ∧
      analysisFailedVerdict.categories = ["unknown"] ∧
      analysisFailedVerdict.confidence = 0.5 ∧
      analysisFailedVerdict.method = some "analysis_failed" ∧
      (combine_moderation_results none (some analysisFailedVerdict) "").map
        CombineOutput.overall_safe = some false) :=
  ⟨by decide, by decide,
    c6_image_failure_conservative "" "aW1n" (by decide) none "" (by decide)⟩

theorem riskIndex_low : riskIndex "low" = some 0 := rfl

/-- Claim C7: flipping one modality verdict's `is_safe` from true to
false (the other operand and all other fields held fixed, all risk
levels valid) makes the combiner's `overall_safe` false and does not
decrease its output risk level, in either modality position. -/
theorem c7_flip_unsafe_monotone (v : Verdict) (o : Option Verdict)
    (d : String) (hv : v.is_safe = true) (hvr : riskValid v = true)
    (ho : riskValidOpt o = true) :
    (((combine_moderation_results (some { v with is_safe := false }) o d).map
        CombineOutput.overall_safe = some false) ∧
      rank (combine_moderation_results (some v) o d) ≤
        rank (combine_moderation_results
          (some { v with is_safe := false }) o d)) ∧
    (((combine_moderation_results o (some { v with is_safe := false }) d).map
        CombineOutput.overall_safe = some false) ∧
      rank (combine_moderation_results o (some v) d) ≤
        rank (combine_moderation_results o
          (some { v with is_safe := false }) d)) := by
  have okv : combineOk (some v) = true := by simp [combineOk, hv]
  have okv' : combineOk (some { v with is_safe := false }) = true := by
    have hr : riskValid { v with is_safe := false } = true := hvr
    simp [combineOk, hr]
  have hok : combineOk o = true := by
    cases o with
    | none => rfl
    | some w =>
        have hw : riskValid w = true := by simpa [riskValidOpt] using ho
        simp [combineOk, hw]
  have hc : contrib (some v) = 0 := by simp [contrib, hv]
  refine ⟨⟨?_, ?_⟩, ?_, ?_⟩
  · rw [overall_safe_eq _ _ _ okv' hok]
    simp [safeContrib]
  · rw [rank_eq _ _ _ okv hok, rank_eq _ _ _ okv' hok, hc]
    exact max_le_max (Nat.zero_le _) (le_refl _)
  · rw [overall_safe_eq _ _ _ hok okv']
    simp [safeContrib]
  · rw [rank_eq _ _ _ hok okv, rank_eq _ _ _ hok okv', hc]
    exact max_le_max (le_refl _) (Nat.zero_le _)

/-- Claim C7 witness: flipping the safe-medium verdict next to an
absent other modality. -/
theorem c7_flip_unsafe_monotone_witness :
    safeMediumVerdict.is_safe = true ∧
    riskValid safeMediumVerdict = true ∧
    riskValidOpt (none : Option Verdict) = true ∧
    ((((combine_moderation_results
          (some { safeMediumVerdict with is_safe := false }) none "").map
        CombineOutput.overall_safe = some false) ∧
      rank (combine_moderation_results (some safeMediumVerdict) none "") ≤
        rank (combine_moderation_results
          (some { safeMediumVerdict with is_safe := false }) none "")) ∧
    (((combine_moderation_results none
          (some { safeMediumVerdict with is_safe := false }) "").map
        CombineOutput.overall_safe = some false) ∧
      rank (combine_moderation_results none (some safeMediumVerdict) "") ≤
        rank (combine_moderation_results none
          (some { safeMediumVerdict with is_safe := false }) ""))) :=
  ⟨rfl, by decide, rfl,
    c7_flip_unsafe_monotone safeMediumVerdict none "" rfl (by decide) rfl⟩

/-- Claim C8 counterexample: given an unsafe verdict whose risk level is
`"extreme"`, the combiner raises the list-index `ValueError` (modelled
as `none`): it fails instead of treating the value as `"medium"`, and no
overall verdict is produced. -/
theorem c8_invalid_risk_fails :
    combine_moderation_results (some badRiskVerdict) none "" = none ∧
    badRiskVerdict.is_safe = false ∧
    riskIndex badRiskVerdict.risk_level = none := by
  exact ⟨rfl, rfl, rfl⟩

theorem imageStep_bad_risk (v : Verdict) (acc : Bool × String × List String)
    (hvu : v.is_safe = false) (hbad : riskIndex v.risk_level = none) :
    imageStep (some v) acc = none := by
  cases h : riskIndex acc.2.1 <;>
    simp [imageStep, hvu, maxRisk, hbad, h]

/-- Claim C8 (amended): for every combiner input containing an unsafe
verdict whose risk-level string is not one of `low`, `medium`, `high`,
the combiner raises (returns no overall verdict), whichever modality
position the invalid verdict occupies and whatever the other operand
and the description are. -/
theorem c8_invalid_risk_raises (v : Verdict) (t i : Option Verdict)
    (d : String) (hvu : v.is_safe = false)
    (hbad : riskIndex v.risk_level = none) :
    combine_moderation_results (some v) i d = none ∧
    combine_moderation_results t (some v) d = none := by
  constructor
  · simp [combine_moderation_results, textStep, hvu, maxRisk, hbad,
      riskIndex_low]
  · unfold combine_moderation_results
    cases h1 : textStep t with
    | none => rfl
    | some acc1 => simp [imageStep_bad_risk v acc1 hvu hbad]

/-- Claim C8 witness: the `"extreme"` verdict in each position, each
time next to a present verdict in the other position. -/
theorem c8_invalid_risk_raises_witness :
    badRiskVerdict.is_safe = false ∧
    riskIndex badRiskVerdict.risk_level = none ∧
    (combine_moderation_results (some badRiskVerdict) (some safeHighVerdict)
        "" = none ∧
      combine_moderation_results (some safeHighVerdict) (some badRiskVerdict)
        "" = none) :=
  ⟨rfl, rfl,
    c8_invalid_risk_raises badRiskVerdict (some safeHighVerdict)
      (some safeHighVerdict) "" rfl rfl⟩

/-- Claim C9: two combiner inputs that differ only in the image
description string produce outputs that agree on `overall_safe` and
`risk_level` (including agreeing on whether the combiner raises): the
description only ever adds a recommendation line. -/
theorem c9_description_no_influence (t i : Option Verdict)
    (d1 d2 : String) :
    (combine_moderation_results t i d1).map
        (fun o => (o.overall_safe, o.risk_level)) =
      (combine_moderation_results t i d2).map
        (fun o => (o.overall_safe, o.risk_level)) := by
  unfold combine_moderation_results
  cases h1 : textStep t with
  | none => rfl
  | some acc1 =>
      cases h2 : imageStep i acc1 with
      | none => simp [h2]
      | some acc2 =>
          obtain ⟨s2, r2, recs2⟩ := acc2
          simp [h2]

/-- Claim C10: a non-empty, all-whitespace text with no image is not
rejected as "No content provided": the graph runs and succeeds with the
`empty_content` text verdict (`is_safe = true`), `overall_safe = true`
and `risk_level = "low"`, while the truly empty string is rejected. -/
theorem c10_whitespace_accepted (tl il : LLMResult) (descr text : String)
    (hne : text ≠ "") (hb : isBlankPy text = true) :
    process_content_moderation tl il descr text "" =
      { success := true
        data := some
          { overall_safe := true
            risk_level := "low"
            recommendations := ["内容审核通过"]
            text_moderation := some emptyContentVerdict
            image_moderation := none
            image_analysis := "" }
        error := none } ∧
    process_content_moderation tl il descr "" "" =
      { success := false, data := none,
        error := some "No content provided" } := by
  constructor
  · simp [process_content_moderation, hne, run_content_moderation_graph,
      text_moderation_node, hb, combine_moderation_results, textStep,
      imageStep, emptyContentVerdict]
  · rfl

/-- Claim C10 witness: the single-space text. -/
theorem c10_whitespace_accepted_witness :
    (" " : String) ≠ "" ∧
    isBlankPy " " = true ∧
    (process_content_moderation .fail .fail "" " " "" =
      { success := true
        data := some
          { overall_safe := true
            risk_level := "low"
            recommendations := ["内容审核通过"]
            text_moderation := some emptyContentVerdict
            image_moderation := none
            image_analysis := "" }
        error := none } ∧
    process_content_moderation .fail .fail "" "" "" =
      { success := false, data := none,
        error := some "No content provided" }) :=
  ⟨by decide, by decide,
    c10_whitespace_accepted .fail .fail "" " " (by decide) (by decide)⟩
